import Mathlib

/-!
Shallow embedding of the StudySpace workspace store
(`src/AIContext.jsx`, second module: `WorkspaceProvider`, lines 422-1071).

The store holds four collections (projects, documents, tasks, messages)
in React state and mutates them with pure list transformations.  We model
the state as a `Workspace` record of lists and each operation as a pure
function `Workspace → Workspace` (returning the created record as well
where the source does).  The clock (`new Date().toISOString()`) and the
id generator (template literals over `Date.now()`) are impure inputs in
the source; here they are explicit `now` / `genId` arguments.

JavaScript update payloads are open objects spread over the existing
record (`{...doc, ...updates}`).  We model a payload as a record of
`Option` fields: `some v` means the caller supplied the key with value
`v`, `none` means the key is absent, and the spread keeps the old value.
Creation payloads carry the fields callers supply at creation time
(the shapes of the seeded records minus the generated fields).
-/

set_option maxRecDepth 4000

namespace StudySpace

/-- A document comment (`{id, userId, text, createdAt}`). -/
structure Comment where
  userId : String
  text : String
  id : String
  createdAt : String
deriving Repr, DecidableEq

/-- A subtask of a task (`{id, title, completed}`). -/
structure Subtask where
  id : String
  title : String
  completed : Bool
deriving Repr, DecidableEq

/-- A reaction entry on a message (`{emoji, userIds}`). -/
structure Reaction where
  emoji : String
  userIds : List String
deriving Repr, DecidableEq

/-- A project record, as seeded in `INITIAL_PROJECTS`. -/
structure Project where
  id : String
  name : String
  description : String
  color : String
  icon : String
  createdAt : String
  updatedAt : String
  ownerId : String
  members : List String
  status : String
  tags : List String
deriving Repr, DecidableEq

/-- A document record, as seeded in `INITIAL_DOCUMENTS`.  `lastEditedBy`
is `Option` because `createDocument` does not default it: a freshly
created document has no `lastEditedBy` key until the first update. -/
structure Document where
  id : String
  projectId : String
  title : String
  content : String
  type : String
  createdAt : String
  updatedAt : String
  createdBy : String
  lastEditedBy : Option String
  tags : List String
  comments : List Comment
  version : Nat
  collaborators : List String
deriving Repr, DecidableEq

/-- A task record, as seeded in `INITIAL_TASKS`. -/
structure Task where
  id : String
  projectId : String
  title : String
  description : String
  status : String
  priority : String
  dueDate : String
  assigneeId : String
  createdBy : String
  createdAt : String
  tags : List String
  subtasks : List Subtask
  comments : List Comment
deriving Repr, DecidableEq

/-- A chat message record, as seeded in `INITIAL_MESSAGES`. -/
structure Message where
  id : String
  projectId : String
  channelId : String
  userId : String
  content : String
  createdAt : String
  reactions : List Reaction
deriving Repr, DecidableEq

/-- The four collections managed by `WorkspaceProvider`
(`projects`, `documents`, `tasks`, `messages` state). -/
structure Workspace where
  projects : List Project
  documents : List Document
  tasks : List Task
  messages : List Message
deriving Repr, DecidableEq

/-! ## Update payloads (the `updates` objects spread over records) -/

/-- Fields a caller may pass in `updateProject`'s `updates` object. -/
structure ProjectUpdates where
  name : Option String := none
  description : Option String := none
  color : Option String := none
  icon : Option String := none
  createdAt : Option String := none
  updatedAt : Option String := none
  ownerId : Option String := none
  members : Option (List String) := none
  status : Option String := none
  tags : Option (List String) := none
deriving Repr, DecidableEq

/-- The spread `{...project, ...updates}`. -/
def applyProjectUpdates (p : Project) (u : ProjectUpdates) : Project where
  id := p.id
  name := u.name.getD p.name
  description := u.description.getD p.description
  color := u.color.getD p.color
  icon := u.icon.getD p.icon
  createdAt := u.createdAt.getD p.createdAt
  updatedAt := u.updatedAt.getD p.updatedAt
  ownerId := u.ownerId.getD p.ownerId
  members := u.members.getD p.members
  status := u.status.getD p.status
  tags := u.tags.getD p.tags

/-- Fields a caller may pass in `updateDocument`'s `updates` object;
note it may contain `version`, `updatedAt` and `lastEditedBy`. -/
structure DocUpdates where
  projectId : Option String := none
  title : Option String := none
  content : Option String := none
  type : Option String := none
  createdAt : Option String := none
  updatedAt : Option String := none
  createdBy : Option String := none
  lastEditedBy : Option String := none
  tags : Option (List String) := none
  comments : Option (List Comment) := none
  version : Option Nat := none
  collaborators : Option (List String) := none
deriving Repr, DecidableEq

/-- The spread `{...doc, ...updates}`. -/
def applyDocUpdates (d : Document) (u : DocUpdates) : Document where
  id := d.id
  projectId := u.projectId.getD d.projectId
  title := u.title.getD d.title
  content := u.content.getD d.content
  type := u.type.getD d.type
  createdAt := u.createdAt.getD d.createdAt
  updatedAt := u.updatedAt.getD d.updatedAt
  createdBy := u.createdBy.getD d.createdBy
  lastEditedBy := match u.lastEditedBy with
    | some s => some s
    | none => d.lastEditedBy
  tags := u.tags.getD d.tags
  comments := u.comments.getD d.comments
  version := u.version.getD d.version
  collaborators := u.collaborators.getD d.collaborators

/-- Fields a caller may pass in `updateTask`'s `updates` object. -/
structure TaskUpdates where
  projectId : Option String := none
  title : Option String := none
  description : Option String := none
  status : Option String := none
  priority : Option String := none
  dueDate : Option String := none
  assigneeId : Option String := none
  createdBy : Option String := none
  createdAt : Option String := none
  tags : Option (List String) := none
  subtasks : Option (List Subtask) := none
  comments : Option (List Comment) := none
deriving Repr, DecidableEq

/-- The spread `{...task, ...updates}`. -/
def applyTaskUpdates (t : Task) (u : TaskUpdates) : Task where
  id := t.id
  projectId := u.projectId.getD t.projectId
  title := u.title.getD t.title
  description := u.description.getD t.description
  status := u.status.getD t.status
  priority := u.priority.getD t.priority
  dueDate := u.dueDate.getD t.dueDate
  assigneeId := u.assigneeId.getD t.assigneeId
  createdBy := u.createdBy.getD t.createdBy
  createdAt := u.createdAt.getD t.createdAt
  tags := u.tags.getD t.tags
  subtasks := u.subtasks.getD t.subtasks
  comments := u.comments.getD t.comments

/-! ## Creation payloads -/

/-- Fields callers supply to `createDocument` (`docData`). -/
structure DocData where
  projectId : String
  title : String
  content : String
  type : String
  createdBy : String
  tags : List String
deriving Repr, DecidableEq

/-- Fields callers supply to `createTask` (`taskData`).  `status`,
`subtasks` and `comments` are `Option` because `createTask` defaults
them and the spread lets an explicit payload field win. -/
structure TaskData where
  projectId : String
  title : String
  description : String
  priority : String
  dueDate : String
  assigneeId : String
  createdBy : String
  tags : List String
  status : Option String := none
  subtasks : Option (List Subtask) := none
  comments : Option (List Comment) := none
deriving Repr, DecidableEq

/-- Fields callers supply to `addDocumentComment` (`comment`). -/
structure CommentData where
  userId : String
  text : String
deriving Repr, DecidableEq

/-! ## Project operations (src/AIContext.jsx lines 683-725) -/

/-- `updateProject(projectId, updates)` (lines 701-707): shallow-merge
over the matching project and refresh `updatedAt`. -/
def updateProject (projectId : String) (updates : ProjectUpdates) (now : String)
    (st : Workspace) : Workspace :=
  { st with projects := st.projects.map fun project =>
      if project.id == projectId then
        { applyProjectUpdates project updates with updatedAt := now }
      else project }

/-- `deleteProject(projectId)` (lines 713-718): remove the project and
filter every document, task and message whose `projectId` matches. -/
def deleteProject (projectId : String) (st : Workspace) : Workspace where
  projects := st.projects.filter fun p => p.id != projectId
  documents := st.documents.filter fun d => d.projectId != projectId
  tasks := st.tasks.filter fun t => t.projectId != projectId
  messages := st.messages.filter fun m => m.projectId != projectId

/-- `getProject(projectId)` (lines 723-725): `projects.find`. -/
def getProject (projectId : String) (st : Workspace) : Option Project :=
  st.projects.find? fun p => p.id == projectId

/-! ## Document operations (lines 734-803) -/

/-- `createDocument(docData)` (lines 734-747): defaults `version` to 1,
`comments` to empty, `collaborators` to `[docData.createdBy]`,
timestamps to now; spreads the payload; appends; returns the record.
`lastEditedBy` is not defaulted, so it is absent on a fresh document. -/
def createDocument (genId now : String) (docData : DocData)
    (st : Workspace) : Document × Workspace :=
  let newDoc : Document :=
    { id := genId
      createdAt := now
      updatedAt := now
      version := 1
      comments := []
      collaborators := [docData.createdBy]
      projectId := docData.projectId
      title := docData.title
      content := docData.content
      type := docData.type
      createdBy := docData.createdBy
      lastEditedBy := none
      tags := docData.tags }
  (newDoc, { st with documents := st.documents ++ [newDoc] })

/-- `updateDocument(docId, updates, userId)` (lines 753-766): spread the
updates over the matching document, then assign `updatedAt`,
`lastEditedBy` and `version: doc.version + 1` after the spread. -/
def updateDocument (docId : String) (updates : DocUpdates) (userId : String)
    (now : String) (st : Workspace) : Workspace :=
  { st with documents := st.documents.map fun doc =>
      if doc.id == docId then
        { applyDocUpdates doc updates with
          updatedAt := now
          lastEditedBy := some userId
          version := doc.version + 1 }
      else doc }

/-- `deleteDocument(docId)` (lines 771-773). -/
def deleteDocument (docId : String) (st : Workspace) : Workspace :=
  { st with documents := st.documents.filter fun d => d.id != docId }

/-- `getProjectDocuments(projectId)` (lines 778-780). -/
def getProjectDocuments (projectId : String) (st : Workspace) : List Document :=
  st.documents.filter fun d => d.projectId == projectId

/-- `addDocumentComment(docId, comment)` (lines 785-803): build the
comment with a generated id and timestamp, append it to the matching
document's comment list, return the comment. -/
def addDocumentComment (docId : String) (genId now : String)
    (comment : CommentData) (st : Workspace) : Comment × Workspace :=
  let newComment : Comment :=
    { id := genId, createdAt := now, userId := comment.userId, text := comment.text }
  (newComment,
   { st with documents := st.documents.map fun doc =>
       if doc.id == docId then
         { doc with comments := doc.comments ++ [newComment] }
       else doc })

/-! ## Task operations (lines 812-864) -/

/-- `createTask(taskData)` (lines 812-824): defaults `status` to
`"todo"`, `subtasks`/`comments` to empty; spreads the payload (so an
explicitly supplied `status`/`subtasks`/`comments` wins); appends. -/
def createTask (genId now : String) (taskData : TaskData)
    (st : Workspace) : Task × Workspace :=
  let newTask : Task :=
    { id := genId
      createdAt := now
      status := taskData.status.getD "todo"
      subtasks := taskData.subtasks.getD []
      comments := taskData.comments.getD []
      projectId := taskData.projectId
      title := taskData.title
      description := taskData.description
      priority := taskData.priority
      dueDate := taskData.dueDate
      assigneeId := taskData.assigneeId
      createdBy := taskData.createdBy
      tags := taskData.tags }
  (newTask, { st with tasks := st.tasks ++ [newTask] })

/-- `updateTask(taskId, updates)` (lines 829-833): shallow merge only —
no timestamp refresh, no version bump, no other field assigned. -/
def updateTask (taskId : String) (updates : TaskUpdates)
    (st : Workspace) : Workspace :=
  { st with tasks := st.tasks.map fun task =>
      if task.id == taskId then applyTaskUpdates task updates else task }

/-- `deleteTask(taskId)` (lines 838-840). -/
def deleteTask (taskId : String) (st : Workspace) : Workspace :=
  { st with tasks := st.tasks.filter fun t => t.id != taskId }

/-- `getProjectTasks(projectId)` (lines 845-847). -/
def getProjectTasks (projectId : String) (st : Workspace) : List Task :=
  st.tasks.filter fun t => t.projectId == projectId

/-- `updateSubtask(taskId, subtaskId, completed)` (lines 852-864):
within the matching task, set `completed` on the matching subtask. -/
def updateSubtask (taskId subtaskId : String) (completed : Bool)
    (st : Workspace) : Workspace :=
  { st with tasks := st.tasks.map fun task =>
      if task.id == taskId then
        { task with subtasks := task.subtasks.map fun s =>
            if s.id == subtaskId then { s with completed := completed } else s }
      else task }

/-! ## Message operations (lines 873-919) -/

/-- `getChannelMessages(projectId, channelId)` (lines 888-892). -/
def getChannelMessages (projectId channelId : String)
    (st : Workspace) : List Message :=
  st.messages.filter fun m => m.projectId == projectId && m.channelId == channelId

/-- `addReaction(messageId, emoji, userId)` (lines 897-919): on the
matching message, if `reactions.find` locates an entry for `emoji`,
map over the reactions appending `userId` to entries with that emoji;
otherwise append a fresh `{emoji, userIds: [userId]}` entry. -/
def addReaction (messageId emoji userId : String) (st : Workspace) : Workspace :=
  { st with messages := st.messages.map fun msg =>
      if msg.id == messageId then
        match msg.reactions.find? (fun r => r.emoji == emoji) with
        | some _ =>
          { msg with reactions := msg.reactions.map fun r =>
              if r.emoji == emoji then { r with userIds := r.userIds ++ [userId] } else r }
        | none =>
          { msg with reactions := msg.reactions ++ [{ emoji := emoji, userIds := [userId] }] }
      else msg }

/-! ## Presence (collaboration) state (lines 928-943)

`activeCollaborators` is a separate piece of state: a JavaScript object
mapping document ids to arrays of user ids, read with `prev[docId] || []`.
We model it as a total function `String → List String` (absent keys are
the empty list). -/

/-- `joinDocument(docId, userId)` (lines 928-933): append `userId` to the
entry for `docId` (no membership check). -/
def joinDocument (docId userId : String) (collab : String → List String) :
    String → List String :=
  fun d => if d == docId then collab docId ++ [userId] else collab d

/-- `leaveDocument(docId, userId)` (lines 938-943): filter `userId` out
of the entry for `docId`. -/
def leaveDocument (docId userId : String) (collab : String → List String) :
    String → List String :=
  fun d => if d == docId then (collab docId).filter (fun uid => uid != userId) else collab d

/-! ## Search (lines 971-998) -/

/-- JavaScript `toLowerCase` restricted to the ASCII range, which covers
every string in this code base. -/
def jsCharToLower (c : Char) : Char :=
  if c.toNat ≥ 65 ∧ c.toNat ≤ 90 then Char.ofNat (c.toNat + 32) else c

/-- `s.toLowerCase()` on an ASCII-cased string. -/
def toLowerCase (s : String) : String :=
  String.mk (s.toList.map jsCharToLower)

/-- Contiguous containment of `sub` in a character list. -/
def isInfixOfChars (sub : List Char) : List Char → Bool
  | [] => sub.isEmpty
  | c :: cs => sub.isPrefixOf (c :: cs) || isInfixOfChars sub cs

/-- JavaScript `s.includes(sub)`: contiguous substring containment. -/
def includesStr (s sub : String) : Bool :=
  isInfixOfChars sub.toList s.toList

/-- The project predicate of `searchWorkspace` (lines 974-978):
`lowerQuery` is the already-lowercased query. -/
def matchesProject (lowerQuery : String) (p : Project) : Bool :=
  includesStr (toLowerCase p.name) lowerQuery ||
  includesStr (toLowerCase p.description) lowerQuery ||
  p.tags.any fun t => includesStr (toLowerCase t) lowerQuery

/-- The document predicate of `searchWorkspace` (lines 980-984). -/
def matchesDocument (lowerQuery : String) (d : Document) : Bool :=
  includesStr (toLowerCase d.title) lowerQuery ||
  includesStr (toLowerCase d.content) lowerQuery ||
  d.tags.any fun t => includesStr (toLowerCase t) lowerQuery

/-- The task predicate of `searchWorkspace` (lines 986-990). -/
def matchesTask (lowerQuery : String) (t : Task) : Bool :=
  includesStr (toLowerCase t.title) lowerQuery ||
  includesStr (toLowerCase t.description) lowerQuery ||
  t.tags.any fun tag => includesStr (toLowerCase tag) lowerQuery

/-- The record returned by `searchWorkspace`. -/
structure SearchResult where
  projects : List Project
  documents : List Document
  tasks : List Task
  totalResults : Nat
deriving Repr, DecidableEq

/-- `searchWorkspace(query)` (lines 971-998): lowercase the query, filter
each collection by case-insensitive substring match on its text fields
and tags, and return the three lists plus the sum of their lengths. -/
def searchWorkspace (query : String) (st : Workspace) : SearchResult :=
  let lowerQuery := toLowerCase query
  let matchedProjects := st.projects.filter (matchesProject lowerQuery)
  let matchedDocuments := st.documents.filter (matchesDocument lowerQuery)
  let matchedTasks := st.tasks.filter (matchesTask lowerQuery)
  { projects := matchedProjects
    documents := matchedDocuments
    tasks := matchedTasks
    totalResults :=
      matchedProjects.length + matchedDocuments.length + matchedTasks.length }

/-! ## Seeded sample data (lines 461-653) -/

/-- `INITIAL_PROJECTS` (lines 461-501). -/
def INITIAL_PROJECTS : List Project :=
  [{ id := "proj-1"
     name := "Machine Learning Study Group"
     description := "Collaborative notes and projects for ML course"
     color := "#6366f1"
     icon := "🤖"
     createdAt := "2024-01-15"
     updatedAt := "2024-03-20"
     ownerId := "1"
     members := ["1", "2", "3"]
     status := "active"
     tags := ["machine-learning", "python", "course"] },
   { id := "proj-2"
     name := "Capstone Project - AI Chatbot"
     description := "Final year project building an educational chatbot"
     color := "#10b981"
     icon := "💬"
     createdAt := "2024-02-01"
     updatedAt := "2024-03-18"
     ownerId := "2"
     members := ["1", "2"]
     status := "active"
     tags := ["capstone", "nlp", "chatbot"] },
   { id := "proj-3"
     name := "Research Paper - Deep Learning"
     description := "Collaborative research paper on transformer architectures"
     color := "#f59e0b"
     icon := "📝"
     createdAt := "2024-02-15"
     updatedAt := "2024-03-15"
     ownerId := "1"
     members := ["1", "2", "3"]
     status := "active"
     tags := ["research", "deep-learning", "transformers"] }]

/-- The first entry of `INITIAL_DOCUMENTS` (lines 504-520). -/
def initialDoc1 : Document where
  id := "doc-1"
  projectId := "proj-1"
  title := "Week 1 - Introduction to Neural Networks"
  content := "# Neural Networks Fundamentals\n\n## What is a Neural Network?\n\nA neural network is a computational model inspired by biological neurons...\n\n## Key Components\n- Input Layer\n- Hidden Layers\n- Output Layer\n- Activation Functions"
  type := "markdown"
  createdAt := "2024-01-16"
  updatedAt := "2024-03-10"
  createdBy := "1"
  lastEditedBy := some "2"
  tags := ["notes", "neural-networks"]
  comments := [{ id := "c1", userId := "2",
                 text := "Great summary! Could we add more about backpropagation?",
                 createdAt := "2024-03-11" }]
  version := 5
  collaborators := ["1", "2"]

/-- The second entry of `INITIAL_DOCUMENTS` (lines 521-535). -/
def initialDoc2 : Document where
  id := "doc-2"
  projectId := "proj-1"
  title := "Week 2 - Convolutional Neural Networks"
  content := "# CNNs Explained\n\n## Overview\nConvolutional Neural Networks are specialized for processing grid-like data...\n\n## Architecture\n1. Convolutional Layers\n2. Pooling Layers\n3. Fully Connected Layers"
  type := "markdown"
  createdAt := "2024-01-23"
  updatedAt := "2024-03-05"
  createdBy := "2"
  lastEditedBy := some "1"
  tags := ["notes", "cnn", "computer-vision"]
  comments := []
  version := 3
  collaborators := ["1", "2", "3"]

/-- The third entry of `INITIAL_DOCUMENTS` (lines 536-550). -/
def initialDoc3 : Document where
  id := "doc-3"
  projectId := "proj-2"
  title := "Chatbot Architecture Design"
  content := "# AI Chatbot Architecture\n\n## System Components\n- Frontend (React)\n- Backend (Python FastAPI)\n- AI Model (GPT-based)\n- Vector Database (Pinecone)\n\n## Data Flow\nUser Input → NLP Processing → Intent Recognition → Response Generation → Output"
  type := "markdown"
  createdAt := "2024-02-05"
  updatedAt := "2024-03-18"
  createdBy := "1"
  lastEditedBy := some "1"
  tags := ["architecture", "design", "technical"]
  comments := []
  version := 8
  collaborators := ["1", "2"]

/-- `INITIAL_DOCUMENTS` (lines 503-551). -/
def INITIAL_DOCUMENTS : List Document :=
  [initialDoc1, initialDoc2, initialDoc3]

/-- The first entry of `INITIAL_TASKS` (lines 554-573). -/
def initialTask1 : Task where
  id := "task-1"
  projectId := "proj-1"
  title := "Complete Week 3 Notes"
  description := "Finish summarizing the RNN and LSTM lecture materials"
  status := "in-progress"
  priority := "high"
  dueDate := "2024-03-25"
  assigneeId := "2"
  createdBy := "1"
  createdAt := "2024-03-15"
  tags := ["notes", "rnn"]
  subtasks := [{ id := "st-1", title := "Watch lecture videos", completed := true },
               { id := "st-2", title := "Take initial notes", completed := true },
               { id := "st-3", title := "Add code examples", completed := false },
               { id := "st-4", title := "Create summary diagram", completed := false }]
  comments := []

/-- The second entry of `INITIAL_TASKS` (lines 574-592). -/
def initialTask2 : Task where
  id := "task-2"
  projectId := "proj-2"
  title := "Implement User Authentication"
  description := "Add login/signup functionality with JWT tokens"
  status := "todo"
  priority := "high"
  dueDate := "2024-03-28"
  assigneeId := "1"
  createdBy := "2"
  createdAt := "2024-03-10"
  tags := ["backend", "security"]
  subtasks := [{ id := "st-5", title := "Setup JWT library", completed := false },
               { id := "st-6", title := "Create auth endpoints", completed := false },
               { id := "st-7", title := "Add password hashing", completed := false }]
  comments := []

/-- The third entry of `INITIAL_TASKS` (lines 593-607). -/
def initialTask3 : Task where
  id := "task-3"
  projectId := "proj-3"
  title := "Literature Review - Attention Mechanisms"
  description := "Research and summarize 10 papers on attention in transformers"
  status := "todo"
  priority := "medium"
  dueDate := "2024-04-01"
  assigneeId := "3"
  createdBy := "1"
  createdAt := "2024-03-12"
  tags := ["research", "reading"]
  subtasks := []
  comments := []

/-- The fourth entry of `INITIAL_TASKS` (lines 608-622). -/
def initialTask4 : Task where
  id := "task-4"
  projectId := "proj-1"
  title := "Setup Python Environment"
  description := "Create virtual environment with all required ML libraries"
  status := "completed"
  priority := "low"
  dueDate := "2024-03-20"
  assigneeId := "1"
  createdBy := "1"
  createdAt := "2024-03-01"
  tags := ["setup", "python"]
  subtasks := []
  comments := []

/-- `INITIAL_TASKS` (lines 553-623). -/
def INITIAL_TASKS : List Task :=
  [initialTask1, initialTask2, initialTask3, initialTask4]

/-- The first entry of `INITIAL_MESSAGES` (lines 626-634). -/
def initialMsg1 : Message where
  id := "msg-1"
  projectId := "proj-1"
  channelId := "general"
  userId := "1"
  content := "Hey team! I just uploaded the Week 2 notes. Let me know if anything needs clarification."
  createdAt := "2024-03-15T10:30:00Z"
  reactions := [{ emoji := "👍", userIds := ["2", "3"] }]

/-- The second entry of `INITIAL_MESSAGES` (lines 635-643). -/
def initialMsg2 : Message where
  id := "msg-2"
  projectId := "proj-1"
  channelId := "general"
  userId := "2"
  content := "Thanks! The CNN explanation is really clear. Should we add some practice problems?"
  createdAt := "2024-03-15T10:45:00Z"
  reactions := []

/-- The third entry of `INITIAL_MESSAGES` (lines 644-652). -/
def initialMsg3 : Message where
  id := "msg-3"
  projectId := "proj-1"
  channelId := "general"
  userId := "3"
  content := "Great idea! I can create a quiz based on the material."
  createdAt := "2024-03-15T11:00:00Z"
  reactions := [{ emoji := "🎉", userIds := ["1", "2"] }]

/-- `INITIAL_MESSAGES` (lines 625-653). -/
def INITIAL_MESSAGES : List Message :=
  [initialMsg1, initialMsg2, initialMsg3]

/-- The workspace state a fresh `WorkspaceProvider` starts from
(`useState(INITIAL_*)`, lines 662-665). -/
def initialWorkspace : Workspace where
  projects := INITIAL_PROJECTS
  documents := INITIAL_DOCUMENTS
  tasks := INITIAL_TASKS
  messages := INITIAL_MESSAGES

/-! ## Derived definitions used by the claims -/

/-- One recorded call to `updateDocument`: the payload, the editing user
and the clock reading at call time. -/
structure UpdateCall where
  updates : DocUpdates
  userId : String
  now : String
deriving Repr, DecidableEq

/-- A sequence of `updateDocument` calls against the same document id,
applied in order. -/
def updateDocumentCalls (docId : String) (calls : List UpdateCall)
    (st : Workspace) : Workspace :=
  calls.foldl (fun s c => updateDocument docId c.updates c.userId c.now s) st

/-- The reaction entry a message holds for `emoji`
(`msg.reactions.find(r => r.emoji === emoji)`). -/
def reactionFor (emoji : String) (rs : List Reaction) : Option Reaction :=
  rs.find? fun r => r.emoji == emoji

/-- At most one reaction entry per distinct emoji. -/
def distinctEmojis (rs : List Reaction) : Prop :=
  rs.Pairwise fun r1 r2 => r1.emoji ≠ r2.emoji

instance (rs : List Reaction) : Decidable (distinctEmojis rs) :=
  inferInstanceAs (Decidable (rs.Pairwise fun (r1 r2 : Reaction) => r1.emoji ≠ r2.emoji))

/-- A call to one of the two presence operations. -/
inductive PresenceOp where
  | join (docId userId : String)
  | leave (docId userId : String)
deriving Repr, DecidableEq

/-- Apply one presence operation to the `activeCollaborators` map. -/
def applyPresenceOp (collab : String → List String) :
    PresenceOp → String → List String
  | .join d u => joinDocument d u collab
  | .leave d u => leaveDocument d u collab

/-- Apply a sequence of presence operations in order. -/
def applyPresenceOps (ops : List PresenceOp) (collab : String → List String) :
    String → List String :=
  ops.foldl applyPresenceOp collab

/-- A reachable state holding a document whose `projectId` references no
existing project: `createDocument` performs no foreign-key check. -/
def danglingState : Workspace :=
  (createDocument "doc-ghost" "2024-05-01T00:00:00Z"
    { projectId := "ghost-proj"
      title := "Orphan notes"
      content := "text"
      type := "markdown"
      createdBy := "1"
      tags := [] }
    initialWorkspace).2

/-! ## Dynamic-field model of creation and search

`createProject` (lines 683-695) performs no validation: a payload missing
`name`, `description` or `tags` stores `undefined` in those fields, and
`searchWorkspace` (lines 971-998) then throws a `TypeError` when it calls
`.toLowerCase()` or `.some(...)` on the missing field.  The typed records
above cannot express an absent field, so this model carries each searched
field as an `Option` (`none` = absent/undefined) and runs the search in
`Except String`, with JavaScript's left-to-right short-circuit evaluation
of `||`: an error is raised only when evaluation actually reaches an
absent field.  Fields the search never reads are omitted. -/

/-- A stored project in the dynamic model. -/
structure ProjectDyn where
  id : String
  name : Option String
  description : Option String
  tags : Option (List String)
deriving Repr, DecidableEq

/-- A stored document in the dynamic model. -/
structure DocumentDyn where
  id : String
  title : Option String
  content : Option String
  tags : Option (List String)
deriving Repr, DecidableEq

/-- A stored task in the dynamic model. -/
structure TaskDyn where
  id : String
  title : Option String
  description : Option String
  tags : Option (List String)
deriving Repr, DecidableEq

/-- The three searched collections in the dynamic model. -/
structure WorkspaceDyn where
  projects : List ProjectDyn
  documents : List DocumentDyn
  tasks : List TaskDyn
deriving Repr, DecidableEq

/-- Payload of `createProject`; every searched field may be omitted since
nothing is validated. -/
structure ProjectDataDyn where
  name : Option String := none
  description : Option String := none
  tags : Option (List String) := none
deriving Repr, DecidableEq

/-- `createProject(projectData)` (lines 683-695) in the dynamic model:
appends the record without validating any field. -/
def createProjectDyn (genId : String) (data : ProjectDataDyn)
    (st : WorkspaceDyn) : ProjectDyn × WorkspaceDyn :=
  let newProject : ProjectDyn :=
    { id := genId
      name := data.name
      description := data.description
      tags := data.tags }
  (newProject, { st with projects := st.projects ++ [newProject] })

/-- `x.toLowerCase()` when `x` may be `undefined`. -/
def lowerField : Option String → Except String String
  | some s => .ok (toLowerCase s)
  | none => .error "TypeError: cannot read toLowerCase of undefined"

/-- `x.some(t => t.toLowerCase().includes(q))` when `x` may be `undefined`. -/
def tagsMatch (lowerQuery : String) : Option (List String) → Except String Bool
  | some ts => .ok (ts.any fun t => includesStr (toLowerCase t) lowerQuery)
  | none => .error "TypeError: cannot read some of undefined"

/-- The project predicate of `searchWorkspace` in the dynamic model,
with short-circuit `||`. -/
def matchesProjectDyn (lowerQuery : String) (p : ProjectDyn) :
    Except String Bool := do
  let n ← lowerField p.name
  if includesStr n lowerQuery then return true
  else
    let d ← lowerField p.description
    if includesStr d lowerQuery then return true
    else tagsMatch lowerQuery p.tags

/-- The document predicate of `searchWorkspace` in the dynamic model. -/
def matchesDocumentDyn (lowerQuery : String) (d : DocumentDyn) :
    Except String Bool := do
  let t ← lowerField d.title
  if includesStr t lowerQuery then return true
  else
    let c ← lowerField d.content
    if includesStr c lowerQuery then return true
    else tagsMatch lowerQuery d.tags

/-- The task predicate of `searchWorkspace` in the dynamic model. -/
def matchesTaskDyn (lowerQuery : String) (t : TaskDyn) :
    Except String Bool := do
  let ti ← lowerField t.title
  if includesStr ti lowerQuery then return true
  else
    let de ← lowerField t.description
    if includesStr de lowerQuery then return true
    else tagsMatch lowerQuery t.tags

/-- `Array.prototype.filter` with a predicate that may throw: elements
are tested left to right and the first raised error aborts the call. -/
def filterE {α : Type} (f : α → Except String Bool) :
    List α → Except String (List α)
  | [] => .ok []
  | x :: xs => do
    let b ← f x
    let rest ← filterE f xs
    if b then return x :: rest else return rest

/-- The record returned by `searchWorkspace` in the dynamic model. -/
structure SearchResultDyn where
  projects : List ProjectDyn
  documents : List DocumentDyn
  tasks : List TaskDyn
  totalResults : Nat
deriving Repr, DecidableEq

/-- `searchWorkspace(query)` in the dynamic model. -/
def searchWorkspaceDyn (query : String) (st : WorkspaceDyn) :
    Except String SearchResultDyn := do
  let lowerQuery := toLowerCase query
  let matchedProjects ← filterE (matchesProjectDyn lowerQuery) st.projects
  let matchedDocuments ← filterE (matchesDocumentDyn lowerQuery) st.documents
  let matchedTasks ← filterE (matchesTaskDyn lowerQuery) st.tasks
  return { projects := matchedProjects
           documents := matchedDocuments
           tasks := matchedTasks
           totalResults :=
             matchedProjects.length + matchedDocuments.length + matchedTasks.length }

/-- The seeded collections in the dynamic model: every searched field is
present. -/
def initialDynWorkspace : WorkspaceDyn where
  projects := INITIAL_PROJECTS.map fun p =>
    { id := p.id, name := some p.name, description := some p.description,
      tags := some p.tags }
  documents := INITIAL_DOCUMENTS.map fun d =>
    { id := d.id, title := some d.title, content := some d.content,
      tags := some d.tags }
  tasks := INITIAL_TASKS.map fun t =>
    { id := t.id, title := some t.title, description := some t.description,
      tags := some t.tags }

/-! ## Helper lemmas -/

/-- A map whose function fixes every member is the identity. -/
theorem map_id_of_mem {α : Type} {f : α → α} {l : List α}
    (h : ∀ a ∈ l, f a = a) : l.map f = l := by
  induction l with
  | nil => rfl
  | cons a as ih =>
    have ih2 := ih fun x hx => h x (List.mem_cons_of_mem a hx)
    rw [List.map_cons, h a (List.mem_cons_self a as), ih2]

/-- A filter whose predicate holds on every member is the identity. -/
theorem filter_id_of_mem {α : Type} {p : α → Bool} {l : List α}
    (h : ∀ a ∈ l, p a = true) : l.filter p = l :=
  List.filter_eq_self.mpr h

/-! ## Claim theorems -/

/-- C2: for every project id `p`, `deleteProject(p)` removes the project
with id `p` and every document, task and message whose `projectId`
equals `p` (keeping all other records), so that afterwards
`getProjectDocuments(p)`, `getProjectTasks(p)` and
`getChannelMessages(p, c)` for every channel `c` return empty results. -/
theorem deleteProject_cascade (projectId : String) (st : Workspace) :
    getProject projectId (deleteProject projectId st) = none ∧
    (∀ d ∈ (deleteProject projectId st).documents, d.projectId ≠ projectId) ∧
    (∀ t ∈ (deleteProject projectId st).tasks, t.projectId ≠ projectId) ∧
    (∀ m ∈ (deleteProject projectId st).messages, m.projectId ≠ projectId) ∧
    (∀ p ∈ st.projects, p.id ≠ projectId → p ∈ (deleteProject projectId st).projects) ∧
    (∀ d ∈ st.documents, d.projectId ≠ projectId → d ∈ (deleteProject projectId st).documents) ∧
    (∀ t ∈ st.tasks, t.projectId ≠ projectId → t ∈ (deleteProject projectId st).tasks) ∧
    (∀ m ∈ st.messages, m.projectId ≠ projectId → m ∈ (deleteProject projectId st).messages) ∧
    getProjectDocuments projectId (deleteProject projectId st) = [] ∧
    getProjectTasks projectId (deleteProject projectId st) = [] ∧
    ∀ channelId, getChannelMessages projectId channelId (deleteProject projectId st) = [] := by
  refine ⟨?_, ?_, ?_, ?_, ?_, ?_, ?_, ?_, ?_, ?_, ?_⟩ <;>
    simp [deleteProject, getProject, getProjectDocuments, getProjectTasks,
      getChannelMessages, List.find?_eq_none, List.filter_eq_nil_iff, List.mem_filter] <;>
    tauto

/-- C2 witness at a concrete input: deleting `proj-1` from the seeded
workspace removes it and its documents while keeping `doc-3`. -/
theorem deleteProject_cascade_witness :
    getProject "proj-1" (deleteProject "proj-1" initialWorkspace) = none ∧
    getProjectDocuments "proj-1" (deleteProject "proj-1" initialWorkspace) = [] ∧
    initialDoc3 ∈ (deleteProject "proj-1" initialWorkspace).documents :=
  ⟨(deleteProject_cascade "proj-1" initialWorkspace).1,
   (deleteProject_cascade "proj-1" initialWorkspace).2.2.2.2.2.2.2.2.1,
   (deleteProject_cascade "proj-1" initialWorkspace).2.2.2.2.2.1 initialDoc3
     (by decide) (by decide)⟩

/-- C6: `createTask(d)` followed by `getProjectTasks(d.projectId)`
returns a list including the created record; every field supplied in `d`
is preserved and the unfilled defaults are applied (`status = "todo"`,
empty subtasks and comments, the generated id and `createdAt`). -/
theorem createTask_roundTrip (genId now : String) (d : TaskData) (st : Workspace) :
    (createTask genId now d st).1 ∈ getProjectTasks d.projectId (createTask genId now d st).2 ∧
    (createTask genId now d st).1.id = genId ∧
    (createTask genId now d st).1.createdAt = now ∧
    (createTask genId now d st).1.projectId = d.projectId ∧
    (createTask genId now d st).1.title = d.title ∧
    (createTask genId now d st).1.description = d.description ∧
    (createTask genId now d st).1.priority = d.priority ∧
    (createTask genId now d st).1.dueDate = d.dueDate ∧
    (createTask genId now d st).1.assigneeId = d.assigneeId ∧
    (createTask genId now d st).1.createdBy = d.createdBy ∧
    (createTask genId now d st).1.tags = d.tags ∧
    (createTask genId now d st).1.status = d.status.getD "todo" ∧
    (createTask genId now d st).1.subtasks = d.subtasks.getD [] ∧
    (createTask genId now d st).1.comments = d.comments.getD [] := by
  refine ⟨?_, rfl, rfl, rfl, rfl, rfl, rfl, rfl, rfl, rfl, rfl, rfl, rfl, rfl⟩
  simp [createTask, getProjectTasks, List.mem_filter]

/-- C7: `updateTask(id, updates)` shallow-merges the updates over the
matching task only: the other three collections are untouched, every
other task is untouched, and the merged task takes exactly the supplied
fields from the payload and keeps every other field (in particular
`createdAt` is not refreshed, and a task has no `updatedAt` or `version`
field to bump — `updateTask` takes no clock input at all). -/
theorem updateTask_shallowMerge (st : Workspace) (taskId : String) (u : TaskUpdates) :
    (updateTask taskId u st).projects = st.projects ∧
    (updateTask taskId u st).documents = st.documents ∧
    (updateTask taskId u st).messages = st.messages ∧
    (updateTask taskId u st).tasks.length = st.tasks.length ∧
    (∀ (n : Nat) (t : Task), st.tasks[n]? = some t →
      (updateTask taskId u st).tasks[n]? =
        some (if t.id == taskId then applyTaskUpdates t u else t)) ∧
    (∀ t : Task, t.id ≠ taskId →
      (if t.id == taskId then applyTaskUpdates t u else t) = t) ∧
    ∀ t : Task,
      (applyTaskUpdates t u).id = t.id ∧
      (applyTaskUpdates t u).projectId = u.projectId.getD t.projectId ∧
      (applyTaskUpdates t u).title = u.title.getD t.title ∧
      (applyTaskUpdates t u).description = u.description.getD t.description ∧
      (applyTaskUpdates t u).status = u.status.getD t.status ∧
      (applyTaskUpdates t u).priority = u.priority.getD t.priority ∧
      (applyTaskUpdates t u).dueDate = u.dueDate.getD t.dueDate ∧
      (applyTaskUpdates t u).assigneeId = u.assigneeId.getD t.assigneeId ∧
      (applyTaskUpdates t u).createdBy = u.createdBy.getD t.createdBy ∧
      (applyTaskUpdates t u).createdAt = u.createdAt.getD t.createdAt ∧
      (applyTaskUpdates t u).tags = u.tags.getD t.tags ∧
      (applyTaskUpdates t u).subtasks = u.subtasks.getD t.subtasks ∧
      (applyTaskUpdates t u).comments = u.comments.getD t.comments := by
  refine ⟨rfl, rfl, rfl, by simp [updateTask], ?_, ?_, ?_⟩
  · intro n t hget
    simp [updateTask, List.getElem?_map, hget]
  · intro t ht
    rw [if_neg (by simp [ht])]
  · intro t
    exact ⟨rfl, rfl, rfl, rfl, rfl, rfl, rfl, rfl, rfl, rfl, rfl, rfl, rfl⟩

/-- C7 witness at a concrete input: marking `task-1` completed rewrites
slot 0 of the task list and nothing else. -/
theorem updateTask_shallowMerge_witness :
    (updateTask "task-1" { status := some "completed" } initialWorkspace).documents =
      initialWorkspace.documents ∧
    (updateTask "task-1" { status := some "completed" } initialWorkspace).tasks[0]? =
      some (if initialTask1.id == "task-1" then
              applyTaskUpdates initialTask1 { status := some "completed" }
            else initialTask1) ∧
    (if initialTask2.id == "task-1" then
        applyTaskUpdates initialTask2 { status := some "completed" }
      else initialTask2) = initialTask2 :=
  ⟨(updateTask_shallowMerge initialWorkspace "task-1" { status := some "completed" }).2.1,
   (updateTask_shallowMerge initialWorkspace "task-1" { status := some "completed" }).2.2.2.2.1
     0 initialTask1 rfl,
   (updateTask_shallowMerge initialWorkspace "task-1" { status := some "completed" }).2.2.2.2.2.1
     initialTask2 (by decide)⟩

/-- Effect of one `updateDocument` call on the document in slot `n` of
the collection, when that document's id is the targeted one. -/
theorem updateDocument_slot (docId : String) (u : DocUpdates) (uid now : String)
    (st : Workspace) (n : Nat) (doc : Document)
    (hget : st.documents[n]? = some doc) (hid : doc.id = docId) :
    (updateDocument docId u uid now st).documents[n]? =
      some { applyDocUpdates doc u with
             updatedAt := now
             lastEditedBy := some uid
             version := doc.version + 1 } := by
  simp [updateDocument, List.getElem?_map, hget, hid]

/-- Iterating `updateDocument` on the id of the document in slot `n`
adds the number of calls to its version. -/
theorem updateDocumentCalls_version (docId : String) (calls : List UpdateCall) :
    ∀ (st : Workspace) (n : Nat) (doc : Document),
      st.documents[n]? = some doc → doc.id = docId →
      ∃ doc', (updateDocumentCalls docId calls st).documents[n]? = some doc' ∧
        doc'.id = docId ∧ doc'.version = doc.version + calls.length := by
  induction calls with
  | nil =>
    intro st n doc hget hid
    exact ⟨doc, by simpa [updateDocumentCalls] using hget, hid, rfl⟩
  | cons c cs ih =>
    intro st n doc hget hid
    have h1 := updateDocument_slot docId c.updates c.userId c.now st n doc hget hid
    have hid1 : ({ applyDocUpdates doc c.updates with
        updatedAt := c.now
        lastEditedBy := some c.userId
        version := doc.version + 1 } : Document).id = docId := by
      simpa [applyDocUpdates] using hid
    obtain ⟨doc', hd', hid', hv'⟩ :=
      ih (updateDocument docId c.updates c.userId c.now st) n _ h1 hid1
    have hb : ({ applyDocUpdates doc c.updates with
        updatedAt := c.now
        lastEditedBy := some c.userId
        version := doc.version + 1 } : Document).version = doc.version + 1 := rfl
    rw [hb] at hv'
    refine ⟨doc', ?_, hid', ?_⟩
    · simpa [updateDocumentCalls] using hd'
    · simp only [List.length_cons]
      omega

/-- C1: each `updateDocument` call on a stored document's id increments
that document's `version` by exactly 1, whatever the payload (the empty
payload included); a created document starts at `version = 1`, so after
N calls the version is N + 1 — the first call yields 2. -/
theorem updateDocument_version_trajectory :
    (∀ (st : Workspace) (docId : String) (u : DocUpdates) (uid now : String)
        (n : Nat) (doc : Document),
      st.documents[n]? = some doc → doc.id = docId →
      ∃ doc', (updateDocument docId u uid now st).documents[n]? = some doc' ∧
        doc'.id = docId ∧ doc'.version = doc.version + 1) ∧
    (∀ (genId now0 : String) (data : DocData) (st : Workspace),
      (createDocument genId now0 data st).1.version = 1) ∧
    ∀ (genId now0 : String) (data : DocData) (st : Workspace)
      (calls : List UpdateCall),
      ∃ doc', (updateDocumentCalls genId calls
          (createDocument genId now0 data st).2).documents[st.documents.length]? =
            some doc' ∧
        doc'.id = genId ∧ doc'.version = calls.length + 1 := by
  refine ⟨?_, fun _ _ _ _ => rfl, ?_⟩
  · intro st docId u uid now n doc hget hid
    exact ⟨_, updateDocument_slot docId u uid now st n doc hget hid,
      by simpa [applyDocUpdates] using hid, rfl⟩
  · intro genId now0 data st calls
    have hget : (createDocument genId now0 data st).2.documents[st.documents.length]? =
        some (createDocument genId now0 data st).1 := by
      simp [createDocument, List.getElem?_concat_length]
    obtain ⟨doc', h1, h2, h3⟩ :=
      updateDocumentCalls_version genId calls _ _ _ hget rfl
    refine ⟨doc', h1, h2, ?_⟩
    have hv : (createDocument genId now0 data st).1.version = 1 := rfl
    rw [hv] at h3
    omega

/-- C1 witness at a concrete input: one empty-payload update of the
seeded `doc-1` takes its version from 5 to 6. -/
theorem updateDocument_version_trajectory_witness :
    ∃ doc', (updateDocument "doc-1" {} "u9" "2024-04-01T00:00:00Z"
        initialWorkspace).documents[0]? = some doc' ∧
      doc'.id = "doc-1" ∧ doc'.version = initialDoc1.version + 1 :=
  updateDocument_version_trajectory.1 initialWorkspace "doc-1" {} "u9"
    "2024-04-01T00:00:00Z" 0 initialDoc1 rfl rfl

/-- C9: `version`, `lastEditedBy` and `updatedAt` cannot be overridden
through the `updates` payload: they are assigned after the spread, so for
every payload — even one carrying `version`, `updatedAt` or
`lastEditedBy` keys — the updated document has `version = old + 1`,
`lastEditedBy` equal to the `userId` argument and the fresh timestamp. -/
theorem updateDocument_protected_fields :
    (∀ (st : Workspace) (docId : String) (u : DocUpdates) (uid now : String)
        (n : Nat) (doc : Document),
      st.documents[n]? = some doc → doc.id = docId →
      ∃ doc', (updateDocument docId u uid now st).documents[n]? = some doc' ∧
        doc'.version = doc.version + 1 ∧
        doc'.lastEditedBy = some uid ∧
        doc'.updatedAt = now) ∧
    ∃ doc', (updateDocument "doc-1"
        { version := some 999
          updatedAt := some "1999-01-01"
          lastEditedBy := some "intruder" }
        "u1" "2024-04-02T00:00:00Z" initialWorkspace).documents[0]? = some doc' ∧
      doc'.version = 6 ∧
      doc'.lastEditedBy = some "u1" ∧
      doc'.updatedAt = "2024-04-02T00:00:00Z" := by
  constructor
  · intro st docId u uid now n doc hget hid
    exact ⟨_, updateDocument_slot docId u uid now st n doc hget hid, rfl, rfl, rfl⟩
  · exact ⟨_, updateDocument_slot "doc-1"
      { version := some 999
        updatedAt := some "1999-01-01"
        lastEditedBy := some "intruder" }
      "u1" "2024-04-02T00:00:00Z" initialWorkspace 0 initialDoc1 rfl rfl,
      rfl, rfl, rfl⟩

/-- C9 witness at a concrete input: an update of the seeded `doc-2` that
smuggles a `version` key still yields version 4 and the caller's
identity and timestamp. -/
theorem updateDocument_protected_fields_witness :
    ∃ doc', (updateDocument "doc-2" { title := some "New title", version := some 42 }
        "u7" "2024-04-03T00:00:00Z" initialWorkspace).documents[1]? = some doc' ∧
      doc'.version = initialDoc2.version + 1 ∧
      doc'.lastEditedBy = some "u7" ∧
      doc'.updatedAt = "2024-04-03T00:00:00Z" :=
  updateDocument_protected_fields.1 initialWorkspace "doc-2"
    { title := some "New title", version := some 42 } "u7" "2024-04-03T00:00:00Z"
    1 initialDoc2 rfl rfl

/-- An emoji-preserving rewrite of the entries preserves distinctness of
emojis. -/
theorem pairwise_emoji_map {G : Reaction → Reaction}
    (hG : ∀ r, (G r).emoji = r.emoji) {rs : List Reaction}
    (h : distinctEmojis rs) : distinctEmojis (rs.map G) :=
  (List.pairwise_map).mpr (h.imp fun hab => by rw [hG, hG]; exact hab)

/-- `find` by emoji commutes with an emoji-preserving rewrite. -/
theorem find?_emoji_map {G : Reaction → Reaction}
    (hG : ∀ r, (G r).emoji = r.emoji) (emoji : String) (rs : List Reaction) :
    (rs.map G).find? (fun r => r.emoji == emoji) =
      Option.map G (rs.find? fun r => r.emoji == emoji) := by
  rw [List.find?_map]
  have hq : ((fun r : Reaction => r.emoji == emoji) ∘ G) =
      fun r : Reaction => r.emoji == emoji := by
    funext x
    simp [Function.comp, hG]
  rw [hq]

/-- An emoji-preserving rewrite that fixes entries of other emojis keeps
the other-emoji entries of the list intact. -/
theorem filter_emoji_map {G : Reaction → Reaction}
    (hG : ∀ r, (G r).emoji = r.emoji) (emoji : String) (rs : List Reaction)
    (hfix : ∀ r, r.emoji ≠ emoji → G r = r) :
    (rs.map G).filter (fun r => r.emoji != emoji) =
      rs.filter fun r => r.emoji != emoji := by
  rw [List.filter_map]
  have hq : ((fun r : Reaction => r.emoji != emoji) ∘ G) =
      fun r : Reaction => r.emoji != emoji := by
    funext x
    simp [Function.comp, hG]
  rw [hq]
  exact map_id_of_mem fun a ha =>
    hfix a (by simpa using (List.mem_filter.mp ha).2)

/-- C3: `addReaction(m, emoji, userId)` appends `userId` to the existing
reaction entry for `emoji` when one exists and otherwise appends a fresh
`{emoji, userIds: [userId]}` entry; a message with at most one entry per
distinct emoji keeps that property, entries for other emojis are
untouched, and reacting twice with "👍" (users `u1`, `u2`) on the seeded
`msg-2` yields exactly one "👍" entry holding `["u1", "u2"]` in arrival
order. -/
theorem addReaction_single_entry :
    (∀ (st : Workspace) (msg : Message) (emoji uid : String),
      msg ∈ st.messages → distinctEmojis msg.reactions →
      ∃ msg' ∈ (addReaction msg.id emoji uid st).messages,
        msg'.id = msg.id ∧
        distinctEmojis msg'.reactions ∧
        reactionFor emoji msg'.reactions =
          some { emoji := emoji
                 userIds := (match reactionFor emoji msg.reactions with
                             | some r => r.userIds
                             | none => []) ++ [uid] } ∧
        msg'.reactions.filter (fun r => r.emoji != emoji) =
          msg.reactions.filter (fun r => r.emoji != emoji)) ∧
    ∃ msg' ∈ (addReaction "msg-2" "👍" "u2"
        (addReaction "msg-2" "👍" "u1" initialWorkspace)).messages,
      msg'.id = "msg-2" ∧
      msg'.reactions = [{ emoji := "👍", userIds := ["u1", "u2"] }] := by
  constructor
  · intro st msg emoji uid hmem hdist
    simp only [addReaction]
    refine ⟨_, List.mem_map_of_mem _ hmem, ?_⟩
    simp only [beq_self_eq_true, if_true]
    rcases hfind : msg.reactions.find? (fun r => r.emoji == emoji) with _ | r
    · simp only [reactionFor, hfind]
      refine ⟨?_, ?_, ?_, ?_⟩
      · trivial
      · exact List.pairwise_append.mpr ⟨hdist, List.pairwise_singleton _ _,
          fun a ha b hb => by
            simp only [List.mem_singleton] at hb
            subst hb
            have := List.find?_eq_none.mp hfind a ha
            simpa using this⟩
      · rw [List.find?_append, hfind]
        simp
      · rw [List.filter_append]
        simp
    · have hre : r.emoji = emoji := by simpa using List.find?_some hfind
      have hG : ∀ r' : Reaction,
          ((fun r' : Reaction => if r'.emoji == emoji
              then { r' with userIds := r'.userIds ++ [uid] } else r') r').emoji
            = r'.emoji := by
        intro r'
        by_cases h : r'.emoji = emoji <;> simp [h]
      have hfix : ∀ r' : Reaction, r'.emoji ≠ emoji →
          (fun r' : Reaction => if r'.emoji == emoji
              then { r' with userIds := r'.userIds ++ [uid] } else r') r' = r' := by
        intro r' h
        simp [h]
      simp only [reactionFor, hfind]
      refine ⟨?_, ?_, ?_, ?_⟩
      · trivial
      · exact pairwise_emoji_map hG hdist
      · rw [find?_emoji_map hG emoji, hfind]
        simp [hre]
      · exact filter_emoji_map hG emoji msg.reactions hfix
  · exact ⟨{ initialMsg2 with reactions := [{ emoji := "👍", userIds := ["u1", "u2"] }] },
      by decide, by decide, by decide⟩

/-- C3 witness at a concrete input: the seeded `msg-1` already carries a
"👍" entry with users `["2", "3"]`; a new "👍" reaction by `u9` extends
exactly that entry. -/
theorem addReaction_single_entry_witness :
    ∃ msg' ∈ (addReaction initialMsg1.id "👍" "u9" initialWorkspace).messages,
      msg'.id = initialMsg1.id ∧
      distinctEmojis msg'.reactions ∧
      reactionFor "👍" msg'.reactions =
        some { emoji := "👍"
               userIds := (match reactionFor "👍" initialMsg1.reactions with
                           | some r => r.userIds
                           | none => []) ++ ["u9"] } ∧
      msg'.reactions.filter (fun r => r.emoji != "👍") =
        initialMsg1.reactions.filter (fun r => r.emoji != "👍") :=
  addReaction_single_entry.1 initialWorkspace initialMsg1 "👍" "u9"
    (by decide) (by decide)

/-- The persistence half of the presence claim: a listed user stays
listed under any sequence of presence operations that does not include
`leaveDocument` for that user on that document. -/
theorem presence_persistence (d u : String) :
    ∀ (ops : List PresenceOp) (collab : String → List String),
      u ∈ collab d → (∀ op ∈ ops, op ≠ PresenceOp.leave d u) →
      u ∈ applyPresenceOps ops collab d := by
  intro ops
  induction ops with
  | nil =>
    intro collab hmem _
    simpa [applyPresenceOps] using hmem
  | cons op rest ih =>
    intro collab hmem hops
    have hstep : u ∈ applyPresenceOp collab op d := by
      cases op with
      | join d' u' =>
        simp only [applyPresenceOp, joinDocument]
        by_cases h : d = d'
        · subst h
          simp only [beq_self_eq_true, if_true]
          exact List.mem_append_left _ hmem
        · rw [if_neg (by simpa using h)]
          exact hmem
      | leave d' u' =>
        have hne : ¬(d' = d ∧ u' = u) := by
          rintro ⟨h1, h2⟩
          exact hops (PresenceOp.leave d' u') (List.mem_cons_self _ _) (by rw [h1, h2])
        simp only [applyPresenceOp, leaveDocument]
        by_cases h : d = d'
        · subst h
          have hu : u' ≠ u := fun hu => hne ⟨rfl, hu⟩
          simp only [beq_self_eq_true, if_true]
          refine List.mem_filter.mpr ⟨hmem, ?_⟩
          simpa using fun heq => hu heq.symm
        · rw [if_neg (by simpa using h)]
          exact hmem
    exact ih (applyPresenceOp collab op) hstep
      fun op2 h2 => hops op2 (List.mem_cons_of_mem _ h2)

/-- C8 (amended): the presence map maintained by `joinDocument` /
`leaveDocument` maps each document id to the LIST of user ids present:
`joinDocument` appends `userId` unconditionally (a user joining twice is
listed twice — the at-most-once reading fails, see the counterexample),
`leaveDocument` removes every occurrence of `userId`, other documents
are untouched, and a user who never leaves remains listed under any
further operations. -/
theorem presence_tracking :
    (∀ (collab : String → List String) (d u : String),
      joinDocument d u collab d = collab d ++ [u] ∧
      (∀ d2, d2 ≠ d → joinDocument d u collab d2 = collab d2) ∧
      leaveDocument d u collab d = (collab d).filter (fun uid => uid != u) ∧
      u ∉ leaveDocument d u collab d ∧
      (∀ d2, d2 ≠ d → leaveDocument d u collab d2 = collab d2)) ∧
    ∀ (collab : String → List String) (d u : String) (ops : List PresenceOp),
      u ∈ collab d → (∀ op ∈ ops, op ≠ PresenceOp.leave d u) →
      u ∈ applyPresenceOps ops collab d := by
  constructor
  · intro collab d u
    refine ⟨by simp [joinDocument], fun d2 h => by simp [joinDocument, h],
      by simp [leaveDocument], by simp [leaveDocument],
      fun d2 h => by simp [leaveDocument, h]⟩
  · intro collab d u ops hmem hops
    exact presence_persistence d u ops collab hmem hops

/-- C8 counterexample: starting from the empty presence map (the seeded
`activeCollaborators` state), `joinDocument("doc-1", "u1")` twice lists
`u1` twice — refuting the claim that no user id appears more than once
per document. -/
theorem presence_tracking_cex :
    ((joinDocument "doc-1" "u1" (joinDocument "doc-1" "u1"
        (fun _ => ([] : List String)))) "doc-1" = ["u1", "u1"]) ∧
    ¬ ((joinDocument "doc-1" "u1" (joinDocument "doc-1" "u1"
        (fun _ => ([] : List String)))) "doc-1").count "u1" ≤ 1 := by
  constructor
  · decide
  · decide

/-- C8 witness at a concrete input: `u1` joins `doc-1`; after `u2` joins
and leaves, `u1` is still listed. -/
theorem presence_tracking_witness :
    "u1" ∈ applyPresenceOps
      [PresenceOp.join "doc-1" "u2", PresenceOp.leave "doc-1" "u2"]
      (joinDocument "doc-1" "u1" (fun _ => ([] : List String))) "doc-1" :=
  presence_tracking.2 (joinDocument "doc-1" "u1" (fun _ => ([] : List String)))
    "doc-1" "u1" [PresenceOp.join "doc-1" "u2", PresenceOp.leave "doc-1" "u2"]
    (by decide) (by decide)

/-- C4: `searchWorkspace(q)` returns exactly the projects, documents and
tasks whose searched fields (name/description/tags, title/content/tags,
title/description/tags) contain the lowercased query, each matching
record exactly as often as the store holds it, with `totalResults` the
sum of the three list lengths; on the seeded data the query "neural"
returns the document titled "Week 1 - Introduction to Neural Networks". -/
theorem searchWorkspace_characterization :
    (∀ (q : String) (st : Workspace),
      (∀ p : Project, p ∈ (searchWorkspace q st).projects ↔
          p ∈ st.projects ∧ matchesProject (toLowerCase q) p = true) ∧
      (∀ d : Document, d ∈ (searchWorkspace q st).documents ↔
          d ∈ st.documents ∧ matchesDocument (toLowerCase q) d = true) ∧
      (∀ t : Task, t ∈ (searchWorkspace q st).tasks ↔
          t ∈ st.tasks ∧ matchesTask (toLowerCase q) t = true) ∧
      (∀ p : Project, matchesProject (toLowerCase q) p = true →
          List.count p (searchWorkspace q st).projects = List.count p st.projects) ∧
      (∀ d : Document, matchesDocument (toLowerCase q) d = true →
          List.count d (searchWorkspace q st).documents = List.count d st.documents) ∧
      (∀ t : Task, matchesTask (toLowerCase q) t = true →
          List.count t (searchWorkspace q st).tasks = List.count t st.tasks) ∧
      (searchWorkspace q st).totalResults =
        (searchWorkspace q st).projects.length +
        (searchWorkspace q st).documents.length +
        (searchWorkspace q st).tasks.length) ∧
    initialDoc1.title = "Week 1 - Introduction to Neural Networks" ∧
    initialDoc1 ∈ (searchWorkspace "neural" initialWorkspace).documents := by
  refine ⟨?_, rfl, by decide⟩
  intro q st
  refine ⟨?_, ?_, ?_, ?_, ?_, ?_, rfl⟩
  · intro p
    simp only [searchWorkspace]
    exact List.mem_filter
  · intro d
    simp only [searchWorkspace]
    exact List.mem_filter
  · intro t
    simp only [searchWorkspace]
    exact List.mem_filter
  · intro p hp
    simp only [searchWorkspace]
    exact List.count_filter hp
  · intro d hd
    simp only [searchWorkspace]
    exact List.count_filter hd
  · intro t ht
    simp only [searchWorkspace]
    exact List.count_filter ht

/-- C4 witness at a concrete input: the seeded `doc-3` does not match
"neural", so it is excluded; `doc-1` matches and is counted once. -/
theorem searchWorkspace_characterization_witness :
    (initialDoc3 ∈ (searchWorkspace "neural" initialWorkspace).documents ↔
      initialDoc3 ∈ initialWorkspace.documents ∧
      matchesDocument (toLowerCase "neural") initialDoc3 = true) ∧
    List.count initialDoc1 (searchWorkspace "neural" initialWorkspace).documents =
      List.count initialDoc1 initialWorkspace.documents :=
  ⟨((searchWorkspace_characterization.1 "neural" initialWorkspace).2.1 initialDoc3),
   ((searchWorkspace_characterization.1 "neural" initialWorkspace).2.2.2.2.1 initialDoc1
     (by decide))⟩

/-- C5 (amended): every mutating operation that looks up by id, except
`deleteProject`, is a complete no-op on an id absent from the relevant
collection, and `getProject` on an absent id returns nothing; in
particular `updateSubtask` with a missing subtask id leaves the tasks
unchanged.  `deleteProject` on an absent project id leaves the projects
collection unchanged, but still removes any document, task or message
whose `projectId` dangles on that id (see the counterexample); it is a
complete no-op only when no record references the id. -/
theorem absent_id_silent_noop :
    (∀ (st : Workspace) (pid : String),
      (∀ p ∈ st.projects, p.id ≠ pid) → getProject pid st = none) ∧
    (∀ (st : Workspace) (pid : String) (u : ProjectUpdates) (now : String),
      (∀ p ∈ st.projects, p.id ≠ pid) → updateProject pid u now st = st) ∧
    (∀ (st : Workspace) (docId : String) (u : DocUpdates) (uid now : String),
      (∀ d ∈ st.documents, d.id ≠ docId) → updateDocument docId u uid now st = st) ∧
    (∀ (st : Workspace) (taskId : String) (u : TaskUpdates),
      (∀ t ∈ st.tasks, t.id ≠ taskId) → updateTask taskId u st = st) ∧
    (∀ (st : Workspace) (docId : String),
      (∀ d ∈ st.documents, d.id ≠ docId) → deleteDocument docId st = st) ∧
    (∀ (st : Workspace) (taskId : String),
      (∀ t ∈ st.tasks, t.id ≠ taskId) → deleteTask taskId st = st) ∧
    (∀ (st : Workspace) (docId genId now : String) (c : CommentData),
      (∀ d ∈ st.documents, d.id ≠ docId) →
      (addDocumentComment docId genId now c st).2 = st) ∧
    (∀ (st : Workspace) (mid emoji uid : String),
      (∀ m ∈ st.messages, m.id ≠ mid) → addReaction mid emoji uid st = st) ∧
    (∀ (st : Workspace) (taskId subId : String) (b : Bool),
      (∀ t ∈ st.tasks, t.id = taskId → ∀ s ∈ t.subtasks, s.id ≠ subId) →
      updateSubtask taskId subId b st = st) ∧
    (∀ (st : Workspace) (pid : String),
      (∀ p ∈ st.projects, p.id ≠ pid) →
      (deleteProject pid st).projects = st.projects) ∧
    (∀ (st : Workspace) (pid : String),
      (∀ p ∈ st.projects, p.id ≠ pid) →
      (∀ d ∈ st.documents, d.projectId ≠ pid) →
      (∀ t ∈ st.tasks, t.projectId ≠ pid) →
      (∀ m ∈ st.messages, m.projectId ≠ pid) →
      deleteProject pid st = st) := by
  refine ⟨?_, ?_, ?_, ?_, ?_, ?_, ?_, ?_, ?_, ?_, ?_⟩
  · intro st pid h
    exact List.find?_eq_none.mpr fun p hp => by simp [h p hp]
  · intro st pid u now h
    simp only [updateProject]
    rw [map_id_of_mem fun p hp => if_neg (by simp [h p hp])]
  · intro st docId u uid now h
    simp only [updateDocument]
    rw [map_id_of_mem fun d hd => if_neg (by simp [h d hd])]
  · intro st taskId u h
    simp only [updateTask]
    rw [map_id_of_mem fun t ht => if_neg (by simp [h t ht])]
  · intro st docId h
    simp only [deleteDocument]
    rw [filter_id_of_mem fun d hd => by simp [h d hd]]
  · intro st taskId h
    simp only [deleteTask]
    rw [filter_id_of_mem fun t ht => by simp [h t ht]]
  · intro st docId genId now c h
    simp only [addDocumentComment]
    rw [map_id_of_mem fun d hd => if_neg (by simp [h d hd])]
  · intro st mid emoji uid h
    simp only [addReaction]
    rw [map_id_of_mem fun m hm => if_neg (by simp [h m hm])]
  · intro st taskId subId b h
    have hm : ∀ t ∈ st.tasks,
        (if t.id == taskId then
          { t with subtasks := t.subtasks.map fun s =>
              if s.id == subId then { s with completed := b } else s }
        else t) = t := by
      intro t ht
      by_cases hid : t.id = taskId
      · rw [if_pos (by simp [hid])]
        rw [map_id_of_mem fun s hs => if_neg (by simp [h t ht hid s hs])]
      · exact if_neg (by simp [hid])
    simp only [updateSubtask]
    rw [map_id_of_mem hm]
  · intro st pid h
    simp only [deleteProject]
    exact filter_id_of_mem fun p hp => by simp [h p hp]
  · intro st pid h1 h2 h3 h4
    simp only [deleteProject]
    rw [filter_id_of_mem fun p hp => by simp [h1 p hp],
      filter_id_of_mem fun d hd => by simp [h2 d hd],
      filter_id_of_mem fun t ht => by simp [h3 t ht],
      filter_id_of_mem fun m hm => by simp [h4 m hm]]

/-- C5 counterexample: `createDocument` checks no foreign key, so a
document whose `projectId` is the unused id `ghost-proj` is reachable;
`deleteProject("ghost-proj")` then mutates the store (it drops that
document) even though no project has that id — so not every listed
operation leaves all four collections unchanged on an absent id. -/
theorem absent_id_silent_noop_cex :
    getProject "ghost-proj" danglingState = none ∧
    deleteProject "ghost-proj" danglingState ≠ danglingState ∧
    danglingState.documents.length = 4 ∧
    (deleteProject "ghost-proj" danglingState).documents.length = 3 := by
  refine ⟨by decide, by decide, by decide, by decide⟩

/-- C5 witness at a concrete input: on the seeded store, operations
aimed at the unused ids `proj-99` / `st-99` change nothing. -/
theorem absent_id_silent_noop_witness :
    getProject "proj-99" initialWorkspace = none ∧
    updateProject "proj-99" { name := some "X" } "2024-04-05T00:00:00Z"
      initialWorkspace = initialWorkspace ∧
    updateSubtask "task-1" "st-99" true initialWorkspace = initialWorkspace :=
  ⟨absent_id_silent_noop.1 initialWorkspace "proj-99" (by decide),
   absent_id_silent_noop.2.1 initialWorkspace "proj-99" { name := some "X" }
     "2024-04-05T00:00:00Z" (by decide),
   absent_id_silent_noop.2.2.2.2.2.2.2.2.1 initialWorkspace "task-1" "st-99" true
     (by decide)⟩

/-- The project predicate of the dynamic search model never raises when
the three searched fields are present. -/
theorem matchesProjectDyn_ok (lq : String) (p : ProjectDyn)
    (h1 : p.name.isSome) (h2 : p.description.isSome) (h3 : p.tags.isSome) :
    ∃ b, matchesProjectDyn lq p = .ok b := by
  obtain ⟨n, hn⟩ := Option.isSome_iff_exists.mp h1
  obtain ⟨de, hd⟩ := Option.isSome_iff_exists.mp h2
  obtain ⟨ts, ht⟩ := Option.isSome_iff_exists.mp h3
  by_cases c1 : includesStr (toLowerCase n) lq <;>
    by_cases c2 : includesStr (toLowerCase de) lq <;>
    simp [matchesProjectDyn, lowerField, tagsMatch, hn, hd, ht, c1, c2,
      Bind.bind, Except.bind, Pure.pure, Except.pure]

/-- The document predicate of the dynamic search model never raises when
the three searched fields are present. -/
theorem matchesDocumentDyn_ok (lq : String) (d : DocumentDyn)
    (h1 : d.title.isSome) (h2 : d.content.isSome) (h3 : d.tags.isSome) :
    ∃ b, matchesDocumentDyn lq d = .ok b := by
  obtain ⟨ti, hti⟩ := Option.isSome_iff_exists.mp h1
  obtain ⟨co, hco⟩ := Option.isSome_iff_exists.mp h2
  obtain ⟨ts, hts⟩ := Option.isSome_iff_exists.mp h3
  by_cases c1 : includesStr (toLowerCase ti) lq <;>
    by_cases c2 : includesStr (toLowerCase co) lq <;>
    simp [matchesDocumentDyn, lowerField, tagsMatch, hti, hco, hts, c1, c2,
      Bind.bind, Except.bind, Pure.pure, Except.pure]

/-- The task predicate of the dynamic search model never raises when
the three searched fields are present. -/
theorem matchesTaskDyn_ok (lq : String) (t : TaskDyn)
    (h1 : t.title.isSome) (h2 : t.description.isSome) (h3 : t.tags.isSome) :
    ∃ b, matchesTaskDyn lq t = .ok b := by
  obtain ⟨ti, hti⟩ := Option.isSome_iff_exists.mp h1
  obtain ⟨de, hde⟩ := Option.isSome_iff_exists.mp h2
  obtain ⟨ts, hts⟩ := Option.isSome_iff_exists.mp h3
  by_cases c1 : includesStr (toLowerCase ti) lq <;>
    by_cases c2 : includesStr (toLowerCase de) lq <;>
    simp [matchesTaskDyn, lowerField, tagsMatch, hti, hde, hts, c1, c2,
      Bind.bind, Except.bind, Pure.pure, Except.pure]

/-- A filter whose predicate succeeds on every element succeeds. -/
theorem filterE_ok {α : Type} (f : α → Except String Bool) :
    ∀ l : List α, (∀ x ∈ l, ∃ b, f x = .ok b) → ∃ l', filterE f l = .ok l' := by
  intro l
  induction l with
  | nil => exact fun _ => ⟨[], rfl⟩
  | cons x xs ih =>
    intro h
    obtain ⟨b, hb⟩ := h x (List.mem_cons_self x xs)
    obtain ⟨l', hl'⟩ := ih fun y hy => h y (List.mem_cons_of_mem x hy)
    cases b
    · exact ⟨l', by simp [filterE, hb, hl', Bind.bind, Except.bind, Pure.pure, Except.pure]⟩
    · exact ⟨x :: l', by simp [filterE, hb, hl', Bind.bind, Except.bind, Pure.pure, Except.pure]⟩

/-- C10: `searchWorkspace` is not total over reachable stores: after
`createProject` with a payload lacking `name` — accepted without
validation — the search raises a `TypeError` reading `toLowerCase` of
the absent field; it is total once every stored project, document and
task carries its three searched fields. -/
theorem searchWorkspace_partiality :
    (searchWorkspaceDyn "ml" (createProjectDyn "proj-x"
        { description := some "created without a name", tags := some [] }
        initialDynWorkspace).2 =
      .error "TypeError: cannot read toLowerCase of undefined") ∧
    ∀ (q : String) (st : WorkspaceDyn),
      (∀ p ∈ st.projects, p.name.isSome ∧ p.description.isSome ∧ p.tags.isSome) →
      (∀ d ∈ st.documents, d.title.isSome ∧ d.content.isSome ∧ d.tags.isSome) →
      (∀ t ∈ st.tasks, t.title.isSome ∧ t.description.isSome ∧ t.tags.isSome) →
      ∃ r, searchWorkspaceDyn q st = .ok r := by
  constructor
  · rfl
  · intro q st hp hd ht
    obtain ⟨lp, hlp⟩ := filterE_ok (matchesProjectDyn (toLowerCase q)) st.projects
      fun x hx => matchesProjectDyn_ok (toLowerCase q) x
        (hp x hx).1 (hp x hx).2.1 (hp x hx).2.2
    obtain ⟨ld, hld⟩ := filterE_ok (matchesDocumentDyn (toLowerCase q)) st.documents
      fun x hx => matchesDocumentDyn_ok (toLowerCase q) x
        (hd x hx).1 (hd x hx).2.1 (hd x hx).2.2
    obtain ⟨lt, hlt⟩ := filterE_ok (matchesTaskDyn (toLowerCase q)) st.tasks
      fun x hx => matchesTaskDyn_ok (toLowerCase q) x
        (ht x hx).1 (ht x hx).2.1 (ht x hx).2.2
    refine ⟨{ projects := lp, documents := ld, tasks := lt,
              totalResults := lp.length + ld.length + lt.length }, ?_⟩
    simp [searchWorkspaceDyn, hlp, hld, hlt, Bind.bind, Except.bind, Pure.pure, Except.pure]

/-- C10 witness at a concrete input: the seeded store satisfies the
precondition, so search succeeds on it. -/
theorem searchWorkspace_partiality_witness :
    ∃ r, searchWorkspaceDyn "neural" initialDynWorkspace = .ok r :=
  searchWorkspace_partiality.2 "neural" initialDynWorkspace
    (by decide) (by decide) (by decide)

end StudySpace
